import Mathlib

/-!
Verification development for the `power_cost.py` electricity price
fetcher.  The Python source is shallowly embedded: instants are modelled
as seconds since the Unix epoch (`Int`), timezone-aware ISO-8601
timestamp strings as an instant together with the rendered offset,
the filesystem cache as an association list from path segments to the
decoded JSON body, and the HTTP layer as a function from the request URL
to a status code and decoded body.  The `Europe/Stockholm` timezone used
by `pytz` is modelled by its IANA rule in force since 1996: UTC+1, with
UTC+2 between 01:00 UTC on the last Sunday of March and 01:00 UTC on the
last Sunday of October.
-/

/-- Days since 1970-01-01 of the civil date `(y, m, d)` in the proleptic
Gregorian calendar (Hinnant's `days_from_civil`, floor-division form). -/
def daysFromCivil (y m d : Int) : Int :=
  let y1 := if m ≤ 2 then y - 1 else y
  let era := Int.fdiv y1 400
  let yoe := y1 - era * 400
  let mp := if m > 2 then m - 3 else m + 9
  let doy := Int.fdiv (153 * mp + 2) 5 + d - 1
  let doe := yoe * 365 + Int.fdiv yoe 4 - Int.fdiv yoe 100 + doy
  era * 146097 + doe - 719468

/-- A civil calendar date, as produced by Python's `datetime.date`. -/
structure SDate where
  year : Int
  month : Int
  day : Int
deriving DecidableEq

/-- Civil date of a day count since 1970-01-01 (Hinnant's
`civil_from_days`, floor-division form). -/
def civilFromDays (z0 : Int) : SDate :=
  let z := z0 + 719468
  let era := Int.fdiv z 146097
  let doe := z - era * 146097
  let yoe := Int.fdiv (doe - Int.fdiv doe 1460 + Int.fdiv doe 36524 - Int.fdiv doe 146096) 365
  let y := yoe + era * 400
  let doy := doe - (365 * yoe + Int.fdiv yoe 4 - Int.fdiv yoe 100)
  let mp := Int.fdiv (5 * doy + 2) 153
  let d := doy - Int.fdiv (153 * mp + 2) 5 + 1
  let m := if mp < 10 then mp + 3 else mp - 9
  ⟨if m ≤ 2 then y + 1 else y, m, d⟩

/-- Day number of the last Sunday of month `m` (March or October, both
31 days long) in year `y`.  Day 3 (1970-01-04) was a Sunday, so
`(d + 4) % 7 = 0` characterises Sundays. -/
def lastSundayOf (y m : Int) : Int :=
  let d := daysFromCivil y m 31
  d - Int.emod (d + 4) 7

/-- UTC offset, in seconds, of `Europe/Stockholm` at the instant `t`
(seconds since the Unix epoch): UTC+2 between 01:00 UTC on the last
Sunday of March and 01:00 UTC on the last Sunday of October, UTC+1
otherwise. -/
def stockholmOffset (t : Int) : Int :=
  let y := (civilFromDays (Int.fdiv t 86400)).year
  let dstStart := lastSundayOf y 3 * 86400 + 3600
  let dstEnd := lastSundayOf y 10 * 86400 + 3600
  if dstStart ≤ t ∧ t < dstEnd then 7200 else 3600

/-- The Stockholm-local calendar date of the instant `t`, i.e.
`datetime.astimezone(stockholm_tz).date()` in the source. -/
def localDate (t : Int) : SDate :=
  civilFromDays (Int.fdiv (t + stockholmOffset t) 86400)

/-- Decimal digit list of `n`, most significant first; `fuel` bounds the
recursion and is structural so the kernel can evaluate it. -/
def natDigsAux : Nat → Nat → List Char
  | 0, _ => []
  | fuel + 1, n =>
    if n < 10 then [Nat.digitChar n]
    else natDigsAux fuel (n / 10) ++ [Nat.digitChar (n % 10)]

/-- Decimal rendering of a natural number (model of Python `str`). -/
def natStr (n : Nat) : String :=
  String.mk (natDigsAux (n + 1) n)

/-- Decimal rendering of an integer (model of `strftime("%Y")`, which
does not zero-pad on glibc; years handled by `datetime` are ≥ 1). -/
def intStr (i : Int) : String :=
  if i < 0 then "-" ++ natStr (-i).toNat else natStr i.toNat

/-- Two-digit zero-padded rendering (model of `strftime("%m")` /
`strftime("%d")`). -/
def pad2 (i : Int) : String :=
  if i < 10 then "0" ++ intStr i else intStr i

/-- The four Swedish price areas (`class PriceArea(Enum)`). -/
inductive PriceArea
  | SE1
  | SE2
  | SE3
  | SE4
deriving DecidableEq

/-- The Python enum member name, used in the URL and the cache path. -/
def PriceArea.name : PriceArea → String
  | .SE1 => "SE1"
  | .SE2 => "SE2"
  | .SE3 => "SE3"
  | .SE4 => "SE4"

/-- The Python enum member value (the representative city). -/
def PriceArea.value : PriceArea → String
  | .SE1 => "Luleå"
  | .SE2 => "Sundsvall"
  | .SE3 => "Stockholm"
  | .SE4 => "Malmö"

/-- A timezone-aware ISO-8601 timestamp string, modelled by the instant
it denotes (seconds since the Unix epoch) and the UTC offset, in
seconds, that the string displays.  `dateutil.parser.parse` recovers the
instant; `astimezone(pytz.utc)` keeps the instant and sets the displayed
offset to `0`; `isoformat` re-renders it. -/
structure TimeStr where
  sec : Int
  tzOffset : Int
deriving DecidableEq

/-- `@dataclass ElectricityCost`.  The price fields are JSON decimals,
modelled as rationals; the code never computes with them. -/
structure ElectricityCost where
  SEK_per_kWh : Rat
  EUR_per_kWh : Rat
  EXR : Rat
  time_start : TimeStr
  time_end : TimeStr
deriving DecidableEq

/-- The on-disk cache: path segments (as produced by `os.path.join`)
mapped to the decoded JSON body stored in the file. -/
abbrev Cache : Type := List (List String × List ElectricityCost)

/-- `os.path.exists` + `json.load`: the body cached at `path`, if any. -/
def findCache : Cache → List String → Option (List ElectricityCost)
  | [], _ => none
  | (k, v) :: rest, path => if k = path then some v else findCache rest path

/-- Observable side effects of a run: fetcher invocations (with their
arguments), HTTP GETs issued (by URL), and cache files written. -/
structure FetchEffects where
  calls : List (SDate × PriceArea)
  network : List String
  writes : List (List String × List ElectricityCost)
deriving DecidableEq

/-- Sequential composition of effect logs. -/
def FetchEffects.append (e1 e2 : FetchEffects) : FetchEffects :=
  ⟨e1.calls ++ e2.calls, e1.network ++ e2.network, e1.writes ++ e2.writes⟩

/-- The cache path `os.path.join("cache", year, month, f"{day}_{area.name}.json")`. -/
def cachePathFor (date : SDate) (area : PriceArea) : List String :=
  ["cache", intStr date.year, pad2 date.month, pad2 date.day ++ "_" ++ area.name ++ ".json"]

/-- The request URL
`f"https://www.elprisetjustnu.se/api/v1/prices/{year}/{month}-{day}_{area.name}.json"`. -/
def urlFor (date : SDate) (area : PriceArea) : String :=
  "https://www.elprisetjustnu.se/api/v1/prices/" ++ intStr date.year ++ "/" ++
    pad2 date.month ++ "-" ++ pad2 date.day ++ "_" ++ area.name ++ ".json"

/-- `fetch_electricity_cost(date, area)`.  `http` models the network
(`requests.get`): URL to status code and decoded body.  Returns the
result (`Except` status-code on the `raise` path), the cache after the
call, and the effect log.  JSON decoding of a stored or received body
into `ElectricityCost` records is structural, hence the identity here. -/
def fetch_electricity_cost (http : String → Nat × List ElectricityCost)
    (cache : Cache) (date : SDate) (area : PriceArea) :
    Except Nat (List ElectricityCost) × Cache × FetchEffects :=
  let cache_path := cachePathFor date area
  match findCache cache cache_path with
  | some cached_data =>
    (Except.ok cached_data, cache, ⟨[(date, area)], [], []⟩)
  | none =>
    let url := urlFor date area
    let response := http url
    if response.1 = 200 then
      (Except.ok response.2, (cache_path, response.2) :: cache,
        ⟨[(date, area)], [url], [(cache_path, response.2)]⟩)
    else
      (Except.error response.1, cache, ⟨[(date, area)], [url], []⟩)

/-- A Python `datetime` argument: the code under test reads only
`year`, `month` and `day`; the remaining fields model the time-of-day
and optional fixed-offset `tzinfo` the caller may have attached. -/
structure PyDateTime where
  year : Int
  month : Int
  day : Int
  hour : Int
  minute : Int
  second : Int
  utcOffset : Option Int
deriving DecidableEq

/-- `start_date_utc = datetime(date_utc.year, date_utc.month,
date_utc.day, tzinfo=pytz.utc)` as an instant. -/
def startUtcOf (dt : PyDateTime) : Int :=
  86400 * daysFromCivil dt.year dt.month dt.day

/-- `end_date_utc = start_date_utc + timedelta(days=1) - timedelta(seconds=1)`. -/
def endUtcOf (dt : PyDateTime) : Int :=
  startUtcOf dt + 86400 - 1

/-- The overlap test of the loop body:
`time_end_utc > start_date_utc and time_start_utc <= end_date_utc`. -/
def keepInterval (startU endU : Int) (cost : ElectricityCost) : Bool :=
  decide (cost.time_end.sec > startU) && decide (cost.time_start.sec ≤ endU)

/-- `replace(cost, time_start=time_start_utc.isoformat(),
time_end=time_end_utc.isoformat())`: a fresh record with the price
fields kept and both timestamps re-rendered in UTC. -/
def toUtcInterval (cost : ElectricityCost) : ElectricityCost :=
  { cost with
    time_start := ⟨cost.time_start.sec, 0⟩
    time_end := ⟨cost.time_end.sec, 0⟩ }

/-- Lines 82–93 of the source: compute the UTC window, convert its ends
to Stockholm dates, and fetch once or twice accordingly (`costs_stockholm`).
Python evaluates `fetch(a) + fetch(b)` left to right and an exception in
the left call prevents the right one, which the error cases mirror. -/
def fetchMerged (http : String → Nat × List ElectricityCost)
    (cache : Cache) (date_utc : PyDateTime) (area : PriceArea) :
    Except Nat (List ElectricityCost) × Cache × FetchEffects :=
  let start_date_utc := startUtcOf date_utc
  let end_date_utc := endUtcOf date_utc
  let start_date_stockholm := localDate start_date_utc
  let end_date_stockholm := localDate end_date_utc
  if start_date_stockholm = end_date_stockholm then
    fetch_electricity_cost http cache start_date_stockholm area
  else
    match fetch_electricity_cost http cache start_date_stockholm area with
    | (Except.error e, cache1, eff1) => (Except.error e, cache1, eff1)
    | (Except.ok xs, cache1, eff1) =>
      match fetch_electricity_cost http cache1 end_date_stockholm area with
      | (Except.error e, cache2, eff2) => (Except.error e, cache2, eff1.append eff2)
      | (Except.ok ys, cache2, eff2) => (Except.ok (xs ++ ys), cache2, eff1.append eff2)

/-- `fetch_electricity_cost_utc(date_utc, area)`: fetch the Stockholm
series covering the UTC day, keep the intervals overlapping the window
`[start_date_utc, end_date_utc]`, and re-stamp them in UTC. -/
def fetch_electricity_cost_utc (http : String → Nat × List ElectricityCost)
    (cache : Cache) (date_utc : PyDateTime) (area : PriceArea) :
    Except Nat (List ElectricityCost) × Cache × FetchEffects :=
  let start_date_utc := startUtcOf date_utc
  let end_date_utc := endUtcOf date_utc
  match fetchMerged http cache date_utc area with
  | (Except.error e, cache1, eff) => (Except.error e, cache1, eff)
  | (Except.ok costs_stockholm, cache1, eff) =>
    (Except.ok (((costs_stockholm.filter (keepInterval start_date_utc end_date_utc)).map
      toUtcInterval)), cache1, eff)

instance {ε α : Type} [DecidableEq ε] [DecidableEq α] : DecidableEq (Except ε α) := fun x y =>
  match x, y with
  | .ok a, .ok b =>
    if h : a = b then isTrue (by rw [h]) else isFalse fun hc => h (Except.ok.inj hc)
  | .error a, .error b =>
    if h : a = b then isTrue (by rw [h]) else isFalse fun hc => h (Except.error.inj hc)
  | .ok _, .error _ => isFalse fun hc => Except.noConfusion hc
  | .error _, .ok _ => isFalse fun hc => Except.noConfusion hc

/-- Test fixture: hourly interval `i` (0-based) of the Stockholm-local
day whose local midnight is `dayIdx * 86400 - 3600` (winter offset
+01:00).  The price fields are tagged so each interval is traceable. -/
def mkLocalCost (tag : Nat) (dayIdx : Int) (i : Nat) : ElectricityCost :=
  { SEK_per_kWh := ((100 * tag + i : Nat) : Rat)
    EUR_per_kWh := ((1000 + 100 * tag + i : Nat) : Rat)
    EXR := 11
    time_start := ⟨dayIdx * 86400 - 3600 + 3600 * i, 3600⟩
    time_end := ⟨dayIdx * 86400 - 3600 + 3600 * (i + 1), 3600⟩ }

/-- 24 hourly Stockholm-local intervals for 2024-01-01 (epoch day 19723). -/
def day1costs : List ElectricityCost := (List.range 24).map (mkLocalCost 1 19723)

/-- 24 hourly Stockholm-local intervals for 2024-01-02 (epoch day 19724). -/
def day2costs : List ElectricityCost := (List.range 24).map (mkLocalCost 2 19724)

/-- Mocked upstream: status 200 with the hourly fixtures for the SE4
URLs of 2024-01-01 and 2024-01-02, status 404 with an empty body
elsewhere. -/
def scenarioHttp : String → Nat × List ElectricityCost := fun url =>
  if url = urlFor ⟨2024, 1, 1⟩ PriceArea.SE4 then (200, day1costs)
  else if url = urlFor ⟨2024, 1, 2⟩ PriceArea.SE4 then (200, day2costs)
  else (404, [])

/-- The request `datetime(2024, 1, 1)` (naive, midnight). -/
def dtJan1 : PyDateTime := ⟨2024, 1, 1, 0, 0, 0, none⟩

/-- The 24 intervals the scenario run must return: UTC hours 0–23 of
2024-01-01, the first 23 from local intervals 1–23 of 2024-01-01 and
the last from local interval 0 of 2024-01-02. -/
def expectedOut : List ElectricityCost :=
  ((List.range 23).map fun k =>
    { SEK_per_kWh := ((101 + k : Nat) : Rat)
      EUR_per_kWh := ((1101 + k : Nat) : Rat)
      EXR := 11
      time_start := ⟨19723 * 86400 + 3600 * k, 0⟩
      time_end := ⟨19723 * 86400 + 3600 * (k + 1), 0⟩ })
  ++ [{ SEK_per_kWh := 200
        EUR_per_kWh := 1200
        EXR := 11
        time_start := ⟨19723 * 86400 + 82800, 0⟩
        time_end := ⟨19724 * 86400, 0⟩ }]

example : (fetch_electricity_cost_utc scenarioHttp [] dtJan1 PriceArea.SE4).1
    = Except.ok expectedOut := by decide

example : daysFromCivil 2024 1 1 = 19723 := by decide

/-- Every run of the daily fetcher logs exactly one invocation, with its
arguments. -/
theorem fetch_calls_eq (http : String → Nat × List ElectricityCost)
    (cache : Cache) (date : SDate) (area : PriceArea) :
    (fetch_electricity_cost http cache date area).2.2.calls = [(date, area)] := by
  by_cases h200 : (http (urlFor date area)).1 = 200 <;>
    cases h : findCache cache (cachePathFor date area) <;>
      simp [fetch_electricity_cost, h, h200]

/-- When the merge stage succeeds, the UTC fetch is the overlap filter
followed by the UTC re-stamping, and state and effects pass through. -/
theorem fetch_utc_decomp (http : String → Nat × List ElectricityCost)
    (cache : Cache) (dt : PyDateTime) (area : PriceArea)
    (costs : List ElectricityCost) (cch : Cache) (eff : FetchEffects)
    (hm : fetchMerged http cache dt area = (Except.ok costs, cch, eff)) :
    fetch_electricity_cost_utc http cache dt area
      = (Except.ok ((costs.filter (keepInterval (startUtcOf dt) (endUtcOf dt))).map
          toUtcInterval), cch, eff) := by
  unfold fetch_electricity_cost_utc
  rw [hm]
example : civilFromDays 19723 = ⟨2024, 1, 1⟩ := by decide
example : stockholmOffset (19723 * 86400) = 3600 := by decide
example : localDate (19723 * 86400) = ⟨2024, 1, 1⟩ := by decide
example : localDate (19723 * 86400 + 86399) = ⟨2024, 1, 2⟩ := by decide
example : natStr 2024 = "2024" := by decide
example : pad2 1 = "01" := by decide

/-- The cache left by the scenario run: both fetched days, most recent
write first. -/
def scenarioCacheAfter : Cache :=
  [(cachePathFor ⟨2024, 1, 2⟩ PriceArea.SE4, day2costs),
   (cachePathFor ⟨2024, 1, 1⟩ PriceArea.SE4, day1costs)]

/-- The effect log of the scenario run: two fetcher calls, two GETs,
two cache writes, in order. -/
def scenarioEff : FetchEffects :=
  ⟨[(⟨2024, 1, 1⟩, PriceArea.SE4), (⟨2024, 1, 2⟩, PriceArea.SE4)],
   [urlFor ⟨2024, 1, 1⟩ PriceArea.SE4, urlFor ⟨2024, 1, 2⟩ PriceArea.SE4],
   [(cachePathFor ⟨2024, 1, 1⟩ PriceArea.SE4, day1costs),
    (cachePathFor ⟨2024, 1, 2⟩ PriceArea.SE4, day2costs)]⟩

/-- Environment for the 2xx-but-not-200 analysis: every URL answers
with status 201 and a decoded body. -/
def http201 : String → Nat × List ElectricityCost := fun _ => (201, day1costs)

/-- C4 (counterexample): status 201 is a 2xx success status, the key is
uncached, yet `fetch_electricity_cost` raises instead of decoding and
returning the body, contradicting "fails if and only if the status is
not a success (2xx) status". -/
theorem C4_counterexample :
    200 ≤ 201 ∧ 201 < 300 ∧
    findCache ([] : Cache) (cachePathFor ⟨2024, 1, 1⟩ PriceArea.SE4) = none ∧
    (fetch_electricity_cost http201 [] ⟨2024, 1, 1⟩ PriceArea.SE4).1 = Except.error 201 ∧
    (fetch_electricity_cost http201 [] ⟨2024, 1, 1⟩ PriceArea.SE4).1 ≠ Except.ok day1costs := by
  decide

/-- C4 (amended): for an uncached key, `fetch_electricity_cost` fails if
and only if the upstream status is not exactly 200; on status 200 it
decodes the body, persists the decoded structure verbatim to the cache,
and returns the series. -/
theorem C4_fail_iff_not_200 (http : String → Nat × List ElectricityCost)
    (cache : Cache) (date : SDate) (area : PriceArea)
    (hmiss : findCache cache (cachePathFor date area) = none) :
    ((∃ e, (fetch_electricity_cost http cache date area).1 = Except.error e)
      ↔ (http (urlFor date area)).1 ≠ 200) ∧
    ((http (urlFor date area)).1 = 200 →
      fetch_electricity_cost http cache date area
        = (Except.ok (http (urlFor date area)).2,
            (cachePathFor date area, (http (urlFor date area)).2) :: cache,
            ⟨[(date, area)], [urlFor date area],
              [(cachePathFor date area, (http (urlFor date area)).2)]⟩)) := by
  by_cases h : (http (urlFor date area)).1 = 200 <;>
    simp [fetch_electricity_cost, hmiss, h]

/-- C4 witness: at a concrete uncached key with a 404 upstream, the
amended equivalence holds and yields the error. -/
theorem C4_fail_iff_not_200_witness :
    ((∃ e, (fetch_electricity_cost scenarioHttp [] ⟨2024, 3, 5⟩ PriceArea.SE1).1
        = Except.error e)
      ↔ (scenarioHttp (urlFor ⟨2024, 3, 5⟩ PriceArea.SE1)).1 ≠ 200) ∧
    ((scenarioHttp (urlFor ⟨2024, 3, 5⟩ PriceArea.SE1)).1 = 200 →
      fetch_electricity_cost scenarioHttp [] ⟨2024, 3, 5⟩ PriceArea.SE1
        = (Except.ok (scenarioHttp (urlFor ⟨2024, 3, 5⟩ PriceArea.SE1)).2,
            (cachePathFor ⟨2024, 3, 5⟩ PriceArea.SE1,
              (scenarioHttp (urlFor ⟨2024, 3, 5⟩ PriceArea.SE1)).2) :: [],
            ⟨[(⟨2024, 3, 5⟩, PriceArea.SE1)], [urlFor ⟨2024, 3, 5⟩ PriceArea.SE1],
              [(cachePathFor ⟨2024, 3, 5⟩ PriceArea.SE1,
                (scenarioHttp (urlFor ⟨2024, 3, 5⟩ PriceArea.SE1)).2)]⟩)) :=
  C4_fail_iff_not_200 scenarioHttp [] ⟨2024, 3, 5⟩ PriceArea.SE1 (by decide)

/-- C5: for an uncached key with a non-2xx upstream status, the fetch
raises an error carrying that status code, issues exactly one request
(no retry), writes nothing, and leaves the cache unchanged. -/
theorem C5_error_no_write (http : String → Nat × List ElectricityCost)
    (cache : Cache) (date : SDate) (area : PriceArea)
    (hmiss : findCache cache (cachePathFor date area) = none)
    (hbad : ¬(200 ≤ (http (urlFor date area)).1 ∧ (http (urlFor date area)).1 < 300)) :
    fetch_electricity_cost http cache date area
      = (Except.error (http (urlFor date area)).1, cache,
          ⟨[(date, area)], [urlFor date area], []⟩) := by
  have hne : (http (urlFor date area)).1 ≠ 200 := by
    intro h
    exact hbad (by rw [h]; omega)
  simp [fetch_electricity_cost, hmiss, hne]

/-- C5 witness: a concrete uncached key whose URL gets a 404 answer. -/
theorem C5_error_no_write_witness :
    fetch_electricity_cost scenarioHttp [] ⟨2024, 3, 5⟩ PriceArea.SE1
      = (Except.error (scenarioHttp (urlFor ⟨2024, 3, 5⟩ PriceArea.SE1)).1, [],
          ⟨[(⟨2024, 3, 5⟩, PriceArea.SE1)], [urlFor ⟨2024, 3, 5⟩ PriceArea.SE1], []⟩) :=
  C5_error_no_write scenarioHttp [] ⟨2024, 3, 5⟩ PriceArea.SE1 (by decide) (by decide)

/-- C6: with a populated cache entry, the fetch returns the series
decoded from the cache with no network access, and an immediately
repeated call for the same key gives the identical result, again with
no network access. -/
theorem C6_cache_hit_idempotent (http : String → Nat × List ElectricityCost)
    (cache : Cache) (date : SDate) (area : PriceArea) (data : List ElectricityCost)
    (hhit : findCache cache (cachePathFor date area) = some data) :
    fetch_electricity_cost http cache date area
      = (Except.ok data, cache, ⟨[(date, area)], [], []⟩) ∧
    fetch_electricity_cost http (fetch_electricity_cost http cache date area).2.1 date area
      = fetch_electricity_cost http cache date area ∧
    (fetch_electricity_cost http
        (fetch_electricity_cost http cache date area).2.1 date area).2.2.network = [] := by
  have h1 : fetch_electricity_cost http cache date area
      = (Except.ok data, cache, ⟨[(date, area)], [], []⟩) := by
    simp [fetch_electricity_cost, hhit]
  refine ⟨h1, ?_, ?_⟩ <;> rw [h1] <;> simp [fetch_electricity_cost, hhit, h1]

/-- C6 witness: a concrete populated cache entry. -/
theorem C6_cache_hit_idempotent_witness :
    fetch_electricity_cost scenarioHttp
        [(cachePathFor ⟨2024, 1, 1⟩ PriceArea.SE4, day1costs)] ⟨2024, 1, 1⟩ PriceArea.SE4
      = (Except.ok day1costs, [(cachePathFor ⟨2024, 1, 1⟩ PriceArea.SE4, day1costs)],
          ⟨[(⟨2024, 1, 1⟩, PriceArea.SE4)], [], []⟩) ∧
    fetch_electricity_cost scenarioHttp
        (fetch_electricity_cost scenarioHttp
          [(cachePathFor ⟨2024, 1, 1⟩ PriceArea.SE4, day1costs)] ⟨2024, 1, 1⟩
          PriceArea.SE4).2.1 ⟨2024, 1, 1⟩ PriceArea.SE4
      = fetch_electricity_cost scenarioHttp
          [(cachePathFor ⟨2024, 1, 1⟩ PriceArea.SE4, day1costs)] ⟨2024, 1, 1⟩
          PriceArea.SE4 ∧
    (fetch_electricity_cost scenarioHttp
        (fetch_electricity_cost scenarioHttp
          [(cachePathFor ⟨2024, 1, 1⟩ PriceArea.SE4, day1costs)] ⟨2024, 1, 1⟩
          PriceArea.SE4).2.1 ⟨2024, 1, 1⟩ PriceArea.SE4).2.2.network = [] :=
  C6_cache_hit_idempotent scenarioHttp
    [(cachePathFor ⟨2024, 1, 1⟩ PriceArea.SE4, day1costs)] ⟨2024, 1, 1⟩ PriceArea.SE4
    day1costs (by decide)

/-- C9: `fetch_electricity_cost_utc` reads only the year, month and day
of its `date_utc` argument: two inputs equal on those fields give equal
results in every environment, whatever their time-of-day or tzinfo. -/
theorem C9_depends_only_on_calendar_date (http : String → Nat × List ElectricityCost)
    (cache : Cache) (area : PriceArea) (dt1 dt2 : PyDateTime)
    (hy : dt1.year = dt2.year) (hm : dt1.month = dt2.month) (hd : dt1.day = dt2.day) :
    fetch_electricity_cost_utc http cache dt1 area
      = fetch_electricity_cost_utc http cache dt2 area := by
  have hs : startUtcOf dt1 = startUtcOf dt2 := by
    unfold startUtcOf
    rw [hy, hm, hd]
  have he : endUtcOf dt1 = endUtcOf dt2 := by
    unfold endUtcOf
    rw [hs]
  unfold fetch_electricity_cost_utc fetchMerged
  rw [hs, he]

/-- C9 witness: midnight naive versus 13:37:59 at offset +05:30 on the
same calendar date give the same run. -/
theorem C9_depends_only_on_calendar_date_witness :
    fetch_electricity_cost_utc scenarioHttp [] ⟨2024, 1, 1, 0, 0, 0, none⟩ PriceArea.SE4
      = fetch_electricity_cost_utc scenarioHttp []
          ⟨2024, 1, 1, 13, 37, 59, some 19800⟩ PriceArea.SE4 :=
  C9_depends_only_on_calendar_date scenarioHttp [] PriceArea.SE4
    ⟨2024, 1, 1, 0, 0, 0, none⟩ ⟨2024, 1, 1, 13, 37, 59, some 19800⟩ rfl rfl rfl

/-- C10: on a cache hit the fetch performs no filesystem writes: the
cache value is returned unchanged and the write log is empty. -/
theorem C10_cache_hit_no_writes (http : String → Nat × List ElectricityCost)
    (cache : Cache) (date : SDate) (area : PriceArea) (data : List ElectricityCost)
    (hhit : findCache cache (cachePathFor date area) = some data) :
    (fetch_electricity_cost http cache date area).2.1 = cache ∧
    (fetch_electricity_cost http cache date area).2.2.writes = [] := by
  simp [fetch_electricity_cost, hhit]

/-- When the window ends fall on the same Stockholm date, the merge
stage is a single daily fetch for that date. -/
theorem fetchMerged_single (http : String → Nat × List ElectricityCost)
    (cache : Cache) (dt : PyDateTime) (area : PriceArea)
    (hd : localDate (startUtcOf dt) = localDate (endUtcOf dt)) :
    fetchMerged http cache dt area
      = fetch_electricity_cost http cache (localDate (startUtcOf dt)) area := by
  simp only [fetchMerged]
  rw [if_pos hd]

/-- When the window straddles a Stockholm date boundary and the first
daily fetch raises, the merge stage propagates that error. -/
theorem fetchMerged_err1 (http : String → Nat × List ElectricityCost)
    (cache : Cache) (dt : PyDateTime) (area : PriceArea)
    (hd : ¬localDate (startUtcOf dt) = localDate (endUtcOf dt))
    (e : Nat) (ca1 : Cache) (ef1 : FetchEffects)
    (h1 : fetch_electricity_cost http cache (localDate (startUtcOf dt)) area
      = (Except.error e, ca1, ef1)) :
    fetchMerged http cache dt area = (Except.error e, ca1, ef1) := by
  simp only [fetchMerged]
  rw [if_neg hd, h1]

/-- Straddling case, first fetch succeeds, second raises: the error
propagates behind the first fetch's effects. -/
theorem fetchMerged_err2 (http : String → Nat × List ElectricityCost)
    (cache : Cache) (dt : PyDateTime) (area : PriceArea)
    (hd : ¬localDate (startUtcOf dt) = localDate (endUtcOf dt))
    (xs : List ElectricityCost) (ca1 : Cache) (ef1 : FetchEffects)
    (h1 : fetch_electricity_cost http cache (localDate (startUtcOf dt)) area
      = (Except.ok xs, ca1, ef1))
    (e : Nat) (ca2 : Cache) (ef2 : FetchEffects)
    (h2 : fetch_electricity_cost http ca1 (localDate (endUtcOf dt)) area
      = (Except.error e, ca2, ef2)) :
    fetchMerged http cache dt area = (Except.error e, ca2, ef1.append ef2) := by
  simp only [fetchMerged]
  rw [if_neg hd, h1]
  dsimp only
  rw [h2]

/-- Straddling case, both fetches succeed: the merge result is the
start-date series followed by the end-date series. -/
theorem fetchMerged_double (http : String → Nat × List ElectricityCost)
    (cache : Cache) (dt : PyDateTime) (area : PriceArea)
    (hd : ¬localDate (startUtcOf dt) = localDate (endUtcOf dt))
    (xs : List ElectricityCost) (ca1 : Cache) (ef1 : FetchEffects)
    (h1 : fetch_electricity_cost http cache (localDate (startUtcOf dt)) area
      = (Except.ok xs, ca1, ef1))
    (ys : List ElectricityCost) (ca2 : Cache) (ef2 : FetchEffects)
    (h2 : fetch_electricity_cost http ca1 (localDate (endUtcOf dt)) area
      = (Except.ok ys, ca2, ef2)) :
    fetchMerged http cache dt area = (Except.ok (xs ++ ys), ca2, ef1.append ef2) := by
  simp only [fetchMerged]
  rw [if_neg hd, h1]
  dsimp only
  rw [h2]

/-- C1: an interval of the merged series appears (UTC-re-stamped) in the
output exactly when its UTC end is strictly after `startUtc` and its UTC
start is at or before `endUtc`; in particular an interval whose UTC end
equals `startUtc` is excluded, and one whose UTC start equals `endUtc`
(and ends after it starts) is included. -/
theorem C1_overlap_filter_boundary (http : String → Nat × List ElectricityCost)
    (cache : Cache) (dt : PyDateTime) (area : PriceArea)
    (costs : List ElectricityCost) (cch : Cache) (eff : FetchEffects)
    (c : ElectricityCost)
    (hm : fetchMerged http cache dt area = (Except.ok costs, cch, eff))
    (hc : c ∈ costs) :
    ∃ out, (fetch_electricity_cost_utc http cache dt area).1 = Except.ok out ∧
      (toUtcInterval c ∈ out ↔
        (c.time_end.sec > startUtcOf dt ∧ c.time_start.sec ≤ endUtcOf dt)) ∧
      (c.time_end.sec = startUtcOf dt → toUtcInterval c ∉ out) ∧
      (c.time_start.sec = endUtcOf dt → c.time_start.sec < c.time_end.sec →
        toUtcInterval c ∈ out) := by
  have hend : endUtcOf dt = startUtcOf dt + 86400 - 1 := rfl
  refine ⟨(costs.filter (keepInterval (startUtcOf dt) (endUtcOf dt))).map toUtcInterval,
    by rw [fetch_utc_decomp http cache dt area costs cch eff hm], ?_⟩
  have hiff : toUtcInterval c ∈
      (costs.filter (keepInterval (startUtcOf dt) (endUtcOf dt))).map toUtcInterval ↔
      (c.time_end.sec > startUtcOf dt ∧ c.time_start.sec ≤ endUtcOf dt) := by
    constructor
    · intro h
      rcases List.mem_map.mp h with ⟨c2, hc2, heq⟩
      rcases List.mem_filter.mp hc2 with ⟨_, hkeep⟩
      have hs : c2.time_start.sec = c.time_start.sec :=
        congrArg (fun x => x.time_start.sec) heq
      have he : c2.time_end.sec = c.time_end.sec :=
        congrArg (fun x => x.time_end.sec) heq
      simp only [keepInterval, Bool.and_eq_true, decide_eq_true_eq] at hkeep
      rw [hs, he] at hkeep
      exact hkeep
    · intro h
      exact List.mem_map.mpr ⟨c,
        List.mem_filter.mpr ⟨hc, by simp [keepInterval, h.1, h.2]⟩, rfl⟩
  refine ⟨hiff, ?_, ?_⟩
  · intro hcut
    rw [hiff]
    rintro ⟨h1, _⟩
    omega
  · intro hstart hlt
    exact hiff.mpr ⟨by omega, by omega⟩

/-- C1 witness: the first local interval of 2024-01-01 ends exactly at
`startUtc` and is excluded from the scenario output. -/
theorem C1_overlap_filter_boundary_witness :
    ∃ out, (fetch_electricity_cost_utc scenarioHttp [] dtJan1 PriceArea.SE4).1
        = Except.ok out ∧
      (toUtcInterval (mkLocalCost 1 19723 0) ∈ out ↔
        ((mkLocalCost 1 19723 0).time_end.sec > startUtcOf dtJan1 ∧
          (mkLocalCost 1 19723 0).time_start.sec ≤ endUtcOf dtJan1)) ∧
      ((mkLocalCost 1 19723 0).time_end.sec = startUtcOf dtJan1 →
        toUtcInterval (mkLocalCost 1 19723 0) ∉ out) ∧
      ((mkLocalCost 1 19723 0).time_start.sec = endUtcOf dtJan1 →
        (mkLocalCost 1 19723 0).time_start.sec < (mkLocalCost 1 19723 0).time_end.sec →
        toUtcInterval (mkLocalCost 1 19723 0) ∈ out) :=
  C1_overlap_filter_boundary scenarioHttp [] dtJan1 PriceArea.SE4
    (day1costs ++ day2costs) scenarioCacheAfter scenarioEff (mkLocalCost 1 19723 0)
    (by decide) (by decide)

/-- C3: a successful UTC-day run converts the window ends to Stockholm
dates; if they coincide the daily fetcher runs once, on that date, else
twice, on each date in order, and the merged series is the start-date
series followed by the end-date series. -/
theorem C3_local_dates_fetch_plan (http : String → Nat × List ElectricityCost)
    (cache : Cache) (dt : PyDateTime) (area : PriceArea)
    (out : List ElectricityCost) (cch : Cache) (eff : FetchEffects)
    (h : fetch_electricity_cost_utc http cache dt area = (Except.ok out, cch, eff)) :
    (localDate (startUtcOf dt) = localDate (endUtcOf dt) →
      eff.calls = [(localDate (startUtcOf dt), area)] ∧
      ∃ xs cch1 eff1,
        fetch_electricity_cost http cache (localDate (startUtcOf dt)) area
          = (Except.ok xs, cch1, eff1) ∧
        (fetchMerged http cache dt area).1 = Except.ok xs) ∧
    (localDate (startUtcOf dt) ≠ localDate (endUtcOf dt) →
      eff.calls = [(localDate (startUtcOf dt), area), (localDate (endUtcOf dt), area)] ∧
      ∃ xs ys cch1 eff1 cch2 eff2,
        fetch_electricity_cost http cache (localDate (startUtcOf dt)) area
          = (Except.ok xs, cch1, eff1) ∧
        fetch_electricity_cost http cch1 (localDate (endUtcOf dt)) area
          = (Except.ok ys, cch2, eff2) ∧
        (fetchMerged http cache dt area).1 = Except.ok (xs ++ ys)) := by
  rcases hfm : fetchMerged http cache dt area with ⟨r, cch1, eff1⟩
  unfold fetch_electricity_cost_utc at h
  rw [hfm] at h
  cases r with
  | error e => exact absurd h (by simp)
  | ok costs =>
    simp only [Prod.mk.injEq, Except.ok.injEq] at h
    obtain ⟨-, hcch, heff⟩ := h
    by_cases hd : localDate (startUtcOf dt) = localDate (endUtcOf dt)
    · have hfm2 := (fetchMerged_single http cache dt area hd).symm.trans hfm
      refine ⟨fun _ => ⟨?_, costs, cch1, eff1, hfm2, rfl⟩, fun hne => absurd hd hne⟩
      have hcalls := fetch_calls_eq http cache (localDate (startUtcOf dt)) area
      rw [hfm2] at hcalls
      rw [← heff]
      exact hcalls
    · rcases hf1 : fetch_electricity_cost http cache (localDate (startUtcOf dt)) area
        with ⟨r1, ca1, ef1⟩
      cases r1 with
      | error e =>
        have hcontra :=
          (fetchMerged_err1 http cache dt area hd e ca1 ef1 hf1).symm.trans hfm
        simp at hcontra
      | ok xs =>
        rcases hf2 : fetch_electricity_cost http ca1 (localDate (endUtcOf dt)) area
          with ⟨r2, ca2, ef2⟩
        cases r2 with
        | error e =>
          have hcontra :=
            (fetchMerged_err2 http cache dt area hd xs ca1 ef1 hf1 e ca2 ef2
              hf2).symm.trans hfm
          simp at hcontra
        | ok ys =>
          have hfm2 :=
            (fetchMerged_double http cache dt area hd xs ca1 ef1 hf1 ys ca2 ef2
              hf2).symm.trans hfm
          simp only [Prod.mk.injEq, Except.ok.injEq] at hfm2
          obtain ⟨hxy, -, hef⟩ := hfm2
          refine ⟨fun heq => absurd heq hd,
            fun _ => ⟨?_, xs, ys, ca1, ef1, ca2, ef2, rfl, hf2, ?_⟩⟩
          · have hc1 := fetch_calls_eq http cache (localDate (startUtcOf dt)) area
            have hc2 := fetch_calls_eq http ca1 (localDate (endUtcOf dt)) area
            rw [hf1] at hc1
            rw [hf2] at hc2
            simp only at hc1 hc2
            rw [← heff, ← hef]
            simp [FetchEffects.append, hc1, hc2]
          · exact congrArg Except.ok hxy.symm

/-- C3 witness: the scenario run straddles the Stockholm day boundary,
so both local dates are fetched, in order. -/
theorem C3_local_dates_fetch_plan_witness :
    scenarioEff.calls
      = [(localDate (startUtcOf dtJan1), PriceArea.SE4),
         (localDate (endUtcOf dtJan1), PriceArea.SE4)] := by
  have h := C3_local_dates_fetch_plan scenarioHttp [] dtJan1 PriceArea.SE4
    expectedOut scenarioCacheAfter scenarioEff (by decide)
  exact (h.2 (by decide)).1

/-- C7: every interval of a successful UTC-day run is a fresh record
carrying the price fields of some interval of the merged source series,
with both timestamps re-stamped as the same instants at UTC offset 0;
the post-merge stage leaves cache state and effects untouched
(`replace` builds a new record, the source records are unchanged). -/
theorem C7_retained_interval_fields (http : String → Nat × List ElectricityCost)
    (cache : Cache) (dt : PyDateTime) (area : PriceArea)
    (costs : List ElectricityCost) (cch : Cache) (eff : FetchEffects)
    (out : List ElectricityCost) (cch2 : Cache) (eff2 : FetchEffects)
    (hm : fetchMerged http cache dt area = (Except.ok costs, cch, eff))
    (hu : fetch_electricity_cost_utc http cache dt area = (Except.ok out, cch2, eff2)) :
    cch2 = cch ∧ eff2 = eff ∧
    ∀ o ∈ out, ∃ c, c ∈ costs ∧
      o.SEK_per_kWh = c.SEK_per_kWh ∧ o.EUR_per_kWh = c.EUR_per_kWh ∧
      o.EXR = c.EXR ∧
      o.time_start = ⟨c.time_start.sec, 0⟩ ∧ o.time_end = ⟨c.time_end.sec, 0⟩ := by
  have hdec := fetch_utc_decomp http cache dt area costs cch eff hm
  rw [hdec] at hu
  simp only [Prod.mk.injEq, Except.ok.injEq] at hu
  obtain ⟨hout, hcch, heff⟩ := hu
  refine ⟨hcch.symm, heff.symm, ?_⟩
  intro o ho
  rw [← hout] at ho
  rcases List.mem_map.mp ho with ⟨c, hcf, hco⟩
  rcases List.mem_filter.mp hcf with ⟨hcm, -⟩
  refine ⟨c, hcm, ?_, ?_, ?_, ?_, ?_⟩ <;> rw [← hco] <;> rfl

/-- C7 witness: the last scenario output interval carries the price
fields of the first local interval of 2024-01-02, re-stamped in UTC. -/
theorem C7_retained_interval_fields_witness :
    ∃ c, c ∈ day1costs ++ day2costs ∧
      ({ SEK_per_kWh := 200, EUR_per_kWh := 1200, EXR := 11,
         time_start := ⟨19723 * 86400 + 82800, 0⟩,
         time_end := ⟨19724 * 86400, 0⟩ } : ElectricityCost).SEK_per_kWh
        = c.SEK_per_kWh ∧
      ({ SEK_per_kWh := 200, EUR_per_kWh := 1200, EXR := 11,
         time_start := ⟨19723 * 86400 + 82800, 0⟩,
         time_end := ⟨19724 * 86400, 0⟩ } : ElectricityCost).EUR_per_kWh
        = c.EUR_per_kWh ∧
      ({ SEK_per_kWh := 200, EUR_per_kWh := 1200, EXR := 11,
         time_start := ⟨19723 * 86400 + 82800, 0⟩,
         time_end := ⟨19724 * 86400, 0⟩ } : ElectricityCost).EXR = c.EXR ∧
      ({ SEK_per_kWh := 200, EUR_per_kWh := 1200, EXR := 11,
         time_start := ⟨19723 * 86400 + 82800, 0⟩,
         time_end := ⟨19724 * 86400, 0⟩ } : ElectricityCost).time_start
        = ⟨c.time_start.sec, 0⟩ ∧
      ({ SEK_per_kWh := 200, EUR_per_kWh := 1200, EXR := 11,
         time_start := ⟨19723 * 86400 + 82800, 0⟩,
         time_end := ⟨19724 * 86400, 0⟩ } : ElectricityCost).time_end
        = ⟨c.time_end.sec, 0⟩ :=
  (C7_retained_interval_fields scenarioHttp [] dtJan1 PriceArea.SE4
    (day1costs ++ day2costs) scenarioCacheAfter scenarioEff
    expectedOut scenarioCacheAfter scenarioEff (by decide) (by decide)).2.2
    { SEK_per_kWh := 200, EUR_per_kWh := 1200, EXR := 11,
      time_start := ⟨19723 * 86400 + 82800, 0⟩,
      time_end := ⟨19724 * 86400, 0⟩ } (by decide)

/-- A number in `[10 ^ k, 10 ^ (k + 1))` renders as `k + 1` digits,
for any sufficient fuel. -/
theorem natDigsAux_length (k : Nat) :
    ∀ fuel n, 10 ^ k ≤ n → n < 10 ^ (k + 1) → k < fuel →
      (natDigsAux fuel n).length = k + 1 := by
  induction k with
  | zero =>
    intro fuel n h1 h2 hf
    match fuel, hf with
    | fuel + 1, _ =>
      simp only [natDigsAux]
      rw [if_pos (by simpa using h2)]
      rfl
  | succ k ih =>
    intro fuel n h1 h2 hf
    match fuel, hf with
    | fuel + 1, hf =>
      have hpow : (10 : Nat) ≤ 10 ^ (k + 1) := by
        calc (10 : Nat) = 10 ^ 1 := (pow_one 10).symm
        _ ≤ 10 ^ (k + 1) := Nat.pow_le_pow_right (by omega) (by omega)
      have h10 : ¬n < 10 := by omega
      simp only [natDigsAux]
      rw [if_neg h10, List.length_append]
      have hdiv1 : 10 ^ k ≤ n / 10 := by
        rw [Nat.le_div_iff_mul_le (by omega)]
        calc 10 ^ k * 10 = 10 ^ (k + 1) := by rw [Nat.pow_succ]
        _ ≤ n := h1
      have hdiv2 : n / 10 < 10 ^ (k + 1) := by
        rw [Nat.div_lt_iff_lt_mul (by omega)]
        calc n < 10 ^ (k + 1 + 1) := h2
        _ = 10 ^ (k + 1) * 10 := by rw [Nat.pow_succ]
      rw [ih fuel (n / 10) hdiv1 hdiv2 (by omega)]
      rfl

/-- The decimal rendering of a number in `[10 ^ k, 10 ^ (k + 1))` has
`k + 1` characters. -/
theorem natStr_length (k n : Nat) (h1 : 10 ^ k ≤ n) (h2 : n < 10 ^ (k + 1)) :
    (natStr n).length = k + 1 := by
  have hk : k < n + 1 := by
    have hkp : k < 10 ^ k := Nat.lt_pow_self (by omega) k
    omega
  exact natDigsAux_length k (n + 1) n h1 h2 hk

/-- Nonnegative-integer version of `natStr_length`. -/
theorem intStr_length (k : Nat) (i : Int) (h0 : ¬i < 0)
    (h1 : 10 ^ k ≤ i.toNat) (h2 : i.toNat < 10 ^ (k + 1)) :
    (intStr i).length = k + 1 := by
  unfold intStr
  rw [if_neg h0]
  exact natStr_length k i.toNat h1 h2

/-- Two-digit rendering: any value in `[1, 99]` pads to length 2. -/
theorem pad2_length (i : Int) (hl : 1 ≤ i) (hr : i ≤ 99) : (pad2 i).length = 2 := by
  by_cases h : i < 10
  · unfold pad2
    rw [if_pos h, String.length_append]
    have hone : (intStr i).length = 1 :=
      intStr_length 0 i (by omega) (by norm_num; omega) (by norm_num; omega)
    rw [hone]
    decide
  · unfold pad2
    rw [if_neg h]
    exact intStr_length 1 i (by omega) (by norm_num; omega) (by norm_num; omega)

/-- Four-digit years render with exactly 4 characters. -/
theorem intStr_year_length (i : Int) (h1 : 1000 ≤ i) (h2 : i ≤ 9999) :
    (intStr i).length = 4 :=
  intStr_length 3 i (by omega) (by norm_num; omega) (by norm_num; omega)

/-- C8: the request URL and the cache path are built from the same
rendered segments: a 4-digit year, 2-digit zero-padded month and day,
and one of the four area tokens, in the documented templates. -/
theorem C8_url_and_cache_path (date : SDate) (area : PriceArea)
    (hy1 : 1000 ≤ date.year) (hy2 : date.year ≤ 9999)
    (hm1 : 1 ≤ date.month) (hm2 : date.month ≤ 12)
    (hd1 : 1 ≤ date.day) (hd2 : date.day ≤ 31) :
    ∃ y m d a,
      urlFor date area
        = "https://www.elprisetjustnu.se/api/v1/prices/" ++ y ++ "/" ++ m ++ "-" ++ d
            ++ "_" ++ a ++ ".json" ∧
      cachePathFor date area = ["cache", y, m, d ++ "_" ++ a ++ ".json"] ∧
      y.length = 4 ∧ m.length = 2 ∧ d.length = 2 ∧
      (a = "SE1" ∨ a = "SE2" ∨ a = "SE3" ∨ a = "SE4") := by
  refine ⟨intStr date.year, pad2 date.month, pad2 date.day, area.name, rfl, rfl,
    intStr_year_length date.year hy1 hy2, pad2_length date.month hm1 (by omega),
    pad2_length date.day hd1 (by omega), ?_⟩
  cases area <;> simp [PriceArea.name]

/-- C8 witness: concrete date 2024-01-01 and area SE1. -/
theorem C8_url_and_cache_path_witness :
    ∃ y m d a,
      urlFor ⟨2024, 1, 1⟩ PriceArea.SE1
        = "https://www.elprisetjustnu.se/api/v1/prices/" ++ y ++ "/" ++ m ++ "-" ++ d
            ++ "_" ++ a ++ ".json" ∧
      cachePathFor ⟨2024, 1, 1⟩ PriceArea.SE1 = ["cache", y, m, d ++ "_" ++ a ++ ".json"] ∧
      y.length = 4 ∧ m.length = 2 ∧ d.length = 2 ∧
      (a = "SE1" ∨ a = "SE2" ∨ a = "SE3" ∨ a = "SE4") :=
  C8_url_and_cache_path ⟨2024, 1, 1⟩ PriceArea.SE1 (by decide) (by decide) (by decide)
    (by decide) (by decide) (by decide)

/-- C2: the concrete scenario run.  With 24 hourly Stockholm-local
intervals mocked for 2024-01-01 and 2024-01-02 (offset +01:00 at both
window ends, so no DST change), requesting UTC day 2024-01-01 for SE4
returns exactly 24 intervals: the first starts 2024-01-01T00:00Z
(epoch second 19723·86400) and ends one hour later, carries the price
fields of the local 01:00–02:00 interval of 2024-01-01, the last ends
2024-01-02T00:00Z, and hour `i` of the UTC day is covered exactly once
by output position `i`. -/
theorem C2_scenario_24_hours :
    day1costs.length = 24 ∧ day2costs.length = 24 ∧
    stockholmOffset (startUtcOf dtJan1) = 3600 ∧
    stockholmOffset (endUtcOf dtJan1) = 3600 ∧
    (fetch_electricity_cost_utc scenarioHttp [] dtJan1 PriceArea.SE4).1
      = Except.ok expectedOut ∧
    expectedOut.length = 24 ∧
    expectedOut.head? = some (toUtcInterval (mkLocalCost 1 19723 1)) ∧
    (expectedOut.head?.map fun c => c.time_start) = some ⟨19723 * 86400, 0⟩ ∧
    (expectedOut.head?.map fun c => c.time_end) = some ⟨19723 * 86400 + 3600, 0⟩ ∧
    (expectedOut.getLast?.map fun c => c.time_end) = some ⟨19724 * 86400, 0⟩ ∧
    ((List.range 24).all fun i =>
      (expectedOut[i]?.map fun c =>
        decide (c.time_start.sec = 19723 * 86400 + 3600 * (i : Int)) &&
          decide (c.time_end.sec = 19723 * 86400 + 3600 * ((i : Int) + 1)) &&
          decide (c.time_start.tzOffset = 0) && decide (c.time_end.tzOffset = 0))
        = some true) = true := by
  decide

/-- C10 witness: a concrete populated cache entry triggers no writes. -/
theorem C10_cache_hit_no_writes_witness :
    (fetch_electricity_cost scenarioHttp
        [(cachePathFor ⟨2024, 1, 2⟩ PriceArea.SE4, day2costs)] ⟨2024, 1, 2⟩
        PriceArea.SE4).2.1
      = [(cachePathFor ⟨2024, 1, 2⟩ PriceArea.SE4, day2costs)] ∧
    (fetch_electricity_cost scenarioHttp
        [(cachePathFor ⟨2024, 1, 2⟩ PriceArea.SE4, day2costs)] ⟨2024, 1, 2⟩
        PriceArea.SE4).2.2.writes = [] :=
  C10_cache_hit_no_writes scenarioHttp
    [(cachePathFor ⟨2024, 1, 2⟩ PriceArea.SE4, day2costs)] ⟨2024, 1, 2⟩ PriceArea.SE4
    day2costs (by decide)
